import Mathlib

/-!
Verification of the MTZ wallet-ledger backend (Kylexvin/MTZ-backend).

Shallow embedding of the wallet/transaction/token subsystem:

* JS numbers carrying token amounts, liters and rates are modelled as `ℚ`
  (the values manipulated here are exact decimals and the code performs only
  field arithmetic on them).
* Calendar days are modelled as `Int`: the source compares
  `toDateString()` strings for calendar-day equality, which corresponds to
  equality of day indices.
* Mongoose documents are modelled as records; a collection is an association
  list keyed by id. `findOne` is first-match lookup; `save()` writes the
  in-memory document snapshot back to its keyed record (replacing the first
  entry with that key, inserting otherwise) after running the schema
  validators (`min: 0` bounds).  Two `findOne` calls return independent
  snapshots, exactly as in mongoose, so a later `save` of a stale snapshot
  overwrites earlier writes to the same record.
* A mongoose session transaction is modelled by returning the original state
  on any error raised inside the `try` block (abortTransaction); operations
  running without a session apply each `save` eagerly, so an error raised
  midway leaves the earlier writes in place.
-/

deriving instance DecidableEq for Except

namespace MTZ

/-- Calendar day index (`toDateString()` equality in the source is equality
of the day index). -/
abbrev Day := Int

/-- Wallet daily-limit block (`limits` subdocument of the Wallet schema,
src/models/Wallet.js lines 17-34, with the schema defaults). -/
structure WalletLimits where
  dailySendLimit : ℚ := 10000
  dailyReceiveLimit : ℚ := 50000
  dailySendUsed : ℚ := 0
  lastReset : Day := 0
  deriving DecidableEq, Repr

/-- Wallet statistics block (`stats` subdocument, Wallet.js lines 35-40). -/
structure WalletStats where
  totalReceived : ℚ := 0
  totalSent : ℚ := 0
  transactionCount : Nat := 0
  lastTransaction : Option Day := none
  deriving DecidableEq, Repr

/-- Wallet document (Wallet.js schema). `balance` is `balances.MTZ`
(schema `min: 0`).  `lockReason` and `failedAttempts` are not read by any
operation modelled here and are omitted. -/
structure Wallet where
  balance : ℚ := 0
  limits : WalletLimits := {}
  stats : WalletStats := {}
  isLocked : Bool := false
  deriving DecidableEq, Repr

/-- wallet.canSend(amount) (Wallet.js lines 263-276): false when locked,
when `balances.MTZ < amount`, or when the last reset happened today and
`dailySendUsed + amount > dailySendLimit`.  The daily-limit clause is only
consulted on a same-day reset, exactly as in the source. -/
def Wallet.canSend (w : Wallet) (amount : ℚ) (today : Day) : Bool :=
  if w.isLocked then false
  else if w.balance < amount then false
  else if w.limits.lastReset = today ∧
      w.limits.dailySendUsed + amount > w.limits.dailySendLimit then false
  else true

/-- In-memory field mutations performed by wallet.addTokens (Wallet.js
lines 278-283) before `save()`. -/
def Wallet.creditApply (w : Wallet) (amount : ℚ) (now : Day) : Wallet :=
  { w with
    balance := w.balance + amount
    stats :=
      { w.stats with
        totalReceived := w.stats.totalReceived + amount
        transactionCount := w.stats.transactionCount + 1
        lastTransaction := some now } }

/-- wallet.addTokens(amount) (Wallet.js lines 278-288): unconditionally adds
to the balance and the received/transaction counters, then `save()`s.  The
save runs the schema validator `balances.MTZ min: 0`, so a credit that would
drive the balance negative is rejected by mongoose.  No lock or
receive-limit check appears on this path. -/
def Wallet.addTokens (w : Wallet) (amount : ℚ) (now : Day) : Except String Wallet :=
  if (w.creditApply amount now).balance < 0 then
    .error "ValidationError: balances.MTZ below minimum"
  else .ok (w.creditApply amount now)

/-- In-memory field mutations performed by wallet.deductTokens (Wallet.js
lines 295-309) before `save()`: balance and sent/transaction counters, and
the daily-limit roll-over (`dailySendUsed` accumulates on a same-day reset,
otherwise is reset to `amount` with `lastReset := today`). -/
def Wallet.deductApply (w : Wallet) (amount : ℚ) (today : Day) : Wallet :=
  { w with
    balance := w.balance - amount
    stats :=
      { w.stats with
        totalSent := w.stats.totalSent + amount
        transactionCount := w.stats.transactionCount + 1
        lastTransaction := some today }
    limits :=
      if w.limits.lastReset = today then
        { w.limits with dailySendUsed := w.limits.dailySendUsed + amount }
      else
        { w.limits with dailySendUsed := amount, lastReset := today } }

/-- wallet.deductTokens(amount) (Wallet.js lines 290-315): throws before any
mutation when `canSend` fails; otherwise applies `deductApply` and
`save()`s (schema validator `balances.MTZ min: 0`). -/
def Wallet.deductTokens (w : Wallet) (amount : ℚ) (today : Day) : Except String Wallet :=
  if ¬ w.canSend amount today then
    .error "Insufficient balance, wallet locked, or daily limit exceeded"
  else if (w.deductApply amount today).balance < 0 then
    .error "ValidationError: balances.MTZ below minimum"
  else .ok (w.deductApply amount today)

/-- Characterization of a successful debit. -/
theorem deductTokens_ok_iff (w : Wallet) (a : ℚ) (d : Day) (w2 : Wallet) :
    w.deductTokens a d = .ok w2 ↔
      w.canSend a d = true ∧ ¬ (w.deductApply a d).balance < 0 ∧
        w2 = w.deductApply a d := by
  by_cases hc : w.canSend a d = true
  · by_cases hv : (w.deductApply a d).balance < 0
    · simp [Wallet.deductTokens, hc, hv]
    · simp [Wallet.deductTokens, hc, hv, eq_comm]
  · simp [Wallet.deductTokens, hc]

/-- Folds a sequence of debit attempts over a wallet: a failed debit throws
in the source, leaving the stored wallet as it was, so the fold keeps the
previous wallet on error. -/
def applyDebits (w : Wallet) (ds : List (ℚ × Day)) : Wallet :=
  ds.foldl (fun w p =>
    match w.deductTokens p.1 p.2 with
    | .ok w2 => w2
    | .error _ => w) w

theorem deductTokens_ok_nonneg (w w2 : Wallet) (a : ℚ) (d : Day)
    (h : w.deductTokens a d = .ok w2) : 0 ≤ w2.balance := by
  obtain ⟨-, hv, rfl⟩ := (deductTokens_ok_iff w a d w2).mp h
  exact le_of_not_gt (by simpa using hv)

theorem deductTokens_error_of_not_canSend (w : Wallet) (a : ℚ) (d : Day)
    (h : w.canSend a d = false) :
    w.deductTokens a d = .error "Insufficient balance, wallet locked, or daily limit exceeded" := by
  unfold Wallet.deductTokens
  simp [h]

/-- Claim C2: for every sequence of debit operations, the balance never goes
below zero; a debit that `canSend` does not allow is rejected with the
insufficient-funds error (and, the debit being rejected before any field is
written, the wallet record is unchanged — in this embedding an erroring
`deductTokens` yields no new wallet at all, so the stored record is kept as
it was). -/
theorem wallet_balance_never_negative (w : Wallet) (ds : List (ℚ × Day))
    (h : 0 ≤ w.balance) :
    0 ≤ (applyDebits w ds).balance ∧
      ∀ a d, w.canSend a d = false →
        w.deductTokens a d =
          .error "Insufficient balance, wallet locked, or daily limit exceeded" := by
  constructor
  · induction ds generalizing w with
    | nil => simpa [applyDebits]
    | cons p rest ih =>
      show 0 ≤ (applyDebits (match w.deductTokens p.1 p.2 with
        | .ok w2 => w2
        | .error _ => w) rest).balance
      rcases hd : w.deductTokens p.1 p.2 with e | w2
      · simpa [applyDebits, hd] using ih w h
      · simpa [applyDebits, hd] using ih w2 (deductTokens_ok_nonneg w w2 p.1 p.2 hd)
  · intro a d hc
    exact deductTokens_error_of_not_canSend w a d hc

/-- Witness for `wallet_balance_never_negative` at a concrete wallet. -/
theorem wallet_balance_never_negative_witness :
    0 ≤ (applyDebits { balance := 5 } [(3, 0), (7, 0), (2, 0)]).balance ∧
      ∀ a d, (({ balance := 5 } : Wallet)).canSend a d = false →
        (({ balance := 5 } : Wallet)).deductTokens a d =
          .error "Insufficient balance, wallet locked, or daily limit exceeded" :=
  wallet_balance_never_negative { balance := 5 } [(3, 0), (7, 0), (2, 0)] (by norm_num)

/-- Claim C7: when the wallet's `lastReset` lies on a calendar day strictly
before today and a debit of amount `a` succeeds today, the resulting
`dailySendUsed` is exactly `a` (yesterday's usage is discarded) and
`lastReset` is updated to today. -/
theorem daily_limit_resets_on_new_day (w w2 : Wallet) (a : ℚ) (today : Day)
    (hday : w.limits.lastReset < today)
    (h : w.deductTokens a today = .ok w2) :
    w2.limits.dailySendUsed = a ∧ w2.limits.lastReset = today := by
  obtain ⟨-, -, rfl⟩ := (deductTokens_ok_iff w a today w2).mp h
  have hne : ¬ w.limits.lastReset = today := ne_of_lt hday
  unfold Wallet.deductApply
  simp [hne]

/-- Wallet used in the C7 witness: 30 of the 50 MTZ daily limit were used on
day 0. -/
def walletUsedYesterday : Wallet :=
  { balance := 100, limits := { dailySendLimit := 50, dailySendUsed := 30, lastReset := 0 } }

/-- Witness for `daily_limit_resets_on_new_day`: a 40 MTZ debit on day 1
succeeds and leaves `dailySendUsed = 40`, not 70. -/
theorem daily_limit_resets_on_new_day_witness :
    walletUsedYesterday.limits.lastReset < 1 ∧
      ∃ w2, walletUsedYesterday.deductTokens 40 1 = .ok w2 ∧
        w2.limits.dailySendUsed = 40 ∧ w2.limits.lastReset = 1 := by
  refine ⟨by norm_num [walletUsedYesterday], ?_⟩
  have h : walletUsedYesterday.deductTokens 40 1 =
      .ok (walletUsedYesterday.deductApply 40 1) := by
    rw [deductTokens_ok_iff]
    refine ⟨?_, ?_, rfl⟩
    · norm_num [Wallet.canSend, walletUsedYesterday]
    · norm_num [Wallet.deductApply, walletUsedYesterday]
  exact ⟨_, h, daily_limit_resets_on_new_day _ _ 40 1
    (by norm_num [walletUsedYesterday]) h⟩

/-- Helper: the same wallet with a different daily receive limit. -/
def Wallet.withReceiveLimit (w : Wallet) (L : ℚ) : Wallet :=
  { w with limits := { w.limits with dailyReceiveLimit := L } }

/-- Claim C10: `addTokens` (the recipient-credit and fee-credit path)
succeeds on a locked wallet and applies no receive-limit check: crediting a
locked wallet with a positive amount still increases its balance,
`totalReceived` and `transactionCount`, and the outcome is unchanged under
any choice of `dailyReceiveLimit` (only the debit path consults the lock,
via `canSend`). -/
theorem credit_ignores_lock_and_receive_limit (w : Wallet) (a : ℚ) (now : Day)
    (hbal : 0 ≤ w.balance) (ha : 0 < a) :
    (∃ w2, ({ w with isLocked := true } : Wallet).addTokens a now = .ok w2 ∧
      w2.balance = w.balance + a ∧
      w2.stats.totalReceived = w.stats.totalReceived + a ∧
      w2.stats.transactionCount = w.stats.transactionCount + 1 ∧
      w2.isLocked = true) ∧
    ∀ L, (w.withReceiveLimit L).addTokens a now =
      (w.addTokens a now).map (fun u => u.withReceiveLimit L) := by
  constructor
  · refine ⟨({ w with isLocked := true } : Wallet).creditApply a now, ?_, rfl, rfl, rfl, rfl⟩
    unfold Wallet.addTokens Wallet.creditApply
    have : ¬ w.balance + a < 0 := not_lt.mpr (by linarith)
    simp [this]
  · intro L
    unfold Wallet.addTokens Wallet.creditApply Wallet.withReceiveLimit
    by_cases hneg : w.balance + a < 0
    · simp [hneg, Except.map]
    · simp [hneg, Except.map]

/-- Witness for `credit_ignores_lock_and_receive_limit` at a locked wallet
with balance 7 credited 5. -/
theorem credit_ignores_lock_and_receive_limit_witness :
    (0 : ℚ) ≤ (({ balance := 7, isLocked := true } : Wallet)).balance ∧ (0 : ℚ) < 5 ∧
    ∃ w2, ({ balance := 7, isLocked := true } : Wallet).addTokens 5 0 = .ok w2 ∧
      w2.balance = 12 := by
  refine ⟨by norm_num, by norm_num, ?_⟩
  obtain ⟨⟨w2, hw, hb, -, -, -⟩, -⟩ :=
    credit_ignores_lock_and_receive_limit { balance := 7, isLocked := true } 5 0
      (by norm_num) (by norm_num)
  exact ⟨w2, by simpa using hw, by rw [hb]; norm_num⟩

/-! ## Keyed collections

A mongoose collection with a unique key is an association list; `findOne` is
first-match lookup and `save()` replaces the first entry with the document's
key (insert on first save). -/

abbrev UserId := Nat

def assocFind {α : Type} : List (Nat × α) → Nat → Option α
  | [], _ => none
  | (k, a) :: rest, u => if k = u then some a else assocFind rest u

def assocSet {α : Type} : List (Nat × α) → Nat → α → List (Nat × α)
  | [], u, a => [(u, a)]
  | (k, a0) :: rest, u, a => if k = u then (k, a) :: rest else (k, a0) :: assocSet rest u a

theorem assocFind_set_self {α : Type} (s : List (Nat × α)) (u : Nat) (a : α) :
    assocFind (assocSet s u a) u = some a := by
  induction s with
  | nil => simp [assocFind, assocSet]
  | cons p rest ih =>
    by_cases h : p.1 = u
    · simp [assocSet, assocFind, h]
    · simp [assocSet, assocFind, h, ih]

theorem assocFind_set_ne {α : Type} (s : List (Nat × α)) (u v : Nat) (a : α)
    (h : v ≠ u) : assocFind (assocSet s u a) v = assocFind s v := by
  induction s with
  | nil => simp [assocFind, assocSet, Ne.symm h]
  | cons p rest ih =>
    by_cases hk : p.1 = u
    · subst hk
      simp [assocSet, assocFind, Ne.symm h]
    · simp [assocSet, assocFind, hk, ih]

theorem assocFind_append_of_some {α : Type} (s r : List (Nat × α)) (u : Nat) (a : α)
    (h : assocFind s u = some a) : assocFind (s ++ r) u = some a := by
  induction s with
  | nil => simp [assocFind] at h
  | cons p rest ih =>
    by_cases hk : p.1 = u
    · simpa [assocFind, hk] using by simpa [assocFind, hk] using h
    · simp [assocFind, hk] at h ⊢
      exact ih h

theorem assocFind_append_of_none {α : Type} (s r : List (Nat × α)) (u : Nat)
    (h : assocFind s u = none) : assocFind (s ++ r) u = assocFind r u := by
  induction s with
  | nil => simp [assocFind]
  | cons p rest ih =>
    by_cases hk : p.1 = u
    · simp [assocFind, hk] at h
    · simp [assocFind, hk] at h ⊢
      exact ih h

/-- Wallet collection (one record per user, keyed by the unique `user`
field). -/
abbrev WStore := List (UserId × Wallet)

/-- Balance of an optional wallet lookup (0 when absent). -/
def balOf (o : Option Wallet) : ℚ :=
  match o with
  | none => 0
  | some w => w.balance

@[simp] theorem balOf_some (w : Wallet) : balOf (some w) = w.balance := rfl

@[simp] theorem balOf_none : balOf none = 0 := rfl

/-- Sum of all stored wallet balances. -/
def walletSum (s : WStore) : ℚ := (s.map (fun p => p.2.balance)).sum

theorem walletSum_set (s : WStore) (u : UserId) (w : Wallet) :
    walletSum (assocSet s u w) = walletSum s + w.balance - balOf (assocFind s u) := by
  induction s with
  | nil => simp [walletSum, assocSet, assocFind, balOf]
  | cons p rest ih =>
    by_cases hk : p.1 = u
    · simp [walletSum, assocSet, assocFind, hk, balOf]
      ring
    · simp only [assocSet, assocFind, hk, if_false, walletSum, List.map_cons, List.sum_cons]
      have := ih
      simp only [walletSum] at this
      rw [this]
      ring

theorem walletSum_append (s r : WStore) :
    walletSum (s ++ r) = walletSum s + walletSum r := by
  simp [walletSum]

/-- Wallet.getOrCreateWallet / getOrCreateWalletInSession (Wallet.js lines
69-84): returns the stored wallet, creating one with the schema defaults on
first reference. -/
def getOrCreateWallet (s : WStore) (u : UserId) : WStore × Wallet :=
  match assocFind s u with
  | some w => (s, w)
  | none => (s ++ [(u, ({} : Wallet))], {})

theorem getOrCreateWallet_sum (s : WStore) (u : UserId) :
    walletSum (getOrCreateWallet s u).1 = walletSum s := by
  unfold getOrCreateWallet
  rcases h : assocFind s u with - | w
  · simp [walletSum_append, walletSum]
  · simp

theorem getOrCreateWallet_find_self (s : WStore) (u : UserId) :
    assocFind (getOrCreateWallet s u).1 u = some (getOrCreateWallet s u).2 := by
  unfold getOrCreateWallet
  rcases h : assocFind s u with - | w
  · simp only [h]
    rw [assocFind_append_of_none s _ u h]
    simp [assocFind]
  · simp only [h]

theorem getOrCreateWallet_find_other (s : WStore) (u v : UserId) (h : v ≠ u) :
    assocFind (getOrCreateWallet s u).1 v = assocFind s v := by
  unfold getOrCreateWallet
  rcases hf : assocFind s u with - | w
  · simp only [hf]
    rcases hv : assocFind s v with - | wv
    · simp [assocFind_append_of_none s _ v hv, hv, assocFind, Ne.symm h]
    · simp [assocFind_append_of_some s _ v wv hv, hv]
  · simp [hf]

theorem getOrCreateWallet_balOf (s : WStore) (u : UserId) :
    (getOrCreateWallet s u).2.balance = balOf (assocFind s u) := by
  unfold getOrCreateWallet
  rcases h : assocFind s u with - | w <;> simp [balOf]

/-! ## Transaction log (src/models/Transaction.js) -/

inductive TxType
  | milk_deposit | cash_deposit | milk_withdrawal | kcc_pickup
  | kcc_delivery | token_transfer | cash_redemption
  deriving DecidableEq, Repr

inductive TxStatus
  | pending | completed | failed | cancelled
  deriving DecidableEq, Repr

/-- fees.type enum of the Transaction schema (`feeNone` stands for the
enum value none). -/
inductive FeeKind
  | p2p_transfer | cash_redemption | withdrawal | feeNone
  deriving DecidableEq, Repr

/-- Transaction document.  Fields not read by any modelled operation
(reference, depositCode, shortCode, notes, exchangeRate, lactometer data,
settlementBatch, relatedTransaction) are omitted; absent optional numeric
fields are 0. -/
structure Txn where
  id : Nat
  type : TxType
  fromUser : Option UserId := none
  toUser : Option UserId := none
  attendant : Option UserId := none
  kccAttendant : Option UserId := none
  depot : Option Nat := none
  litersRaw : ℚ := 0
  tokensAmount : ℚ := 0
  cashAmount : ℚ := 0
  feesAmount : ℚ := 0
  feesRate : ℚ := 0
  feesType : FeeKind := .feeNone
  status : TxStatus := .completed
  deriving DecidableEq, Repr

/-- Mongoose schema validators run on every Transaction save: `min: 0` on
litersRaw, tokensAmount and cashAmount. -/
def txnValid (t : Txn) : Bool :=
  0 ≤ t.litersRaw ∧ 0 ≤ t.tokensAmount ∧ 0 ≤ t.cashAmount

/-- Transaction.createTokenTransfer: a completed token_transfer document.
The Wallet statics pass keys `fromUser`/`toUser` while createTokenTransfer
destructures `fromUserId`/`toUserId` from its argument, so the user
references land as undefined (modelled `none`).  `fees.amount || 0` and
`fees.rate || 0` pass the caller-supplied numbers through; the pre-save
hook then re-derives fees.type: `p2p_transfer` for a token_transfer with
`fees.amount > 0`, else the none value. -/
def mkTokenTransfer (id : Nat) (tokensAmount feesAmount feesRate : ℚ) : Txn :=
  { id := id
    type := .token_transfer
    tokensAmount := tokensAmount
    feesAmount := feesAmount
    feesRate := feesRate
    feesType := if feesAmount > 0 then .p2p_transfer else .feeNone
    status := .completed }

/-! ## Token supply ledger (src/models/Token.js) -/

inductive ActKind
  | mint | burn | price_adjustment | supply_update
  deriving DecidableEq, Repr

/-- TokenActivity entry: mint/burn events carry the resulting supply
snapshot. -/
structure TokenActivityEntry where
  kind : ActKind
  amount : ℚ
  totalSupply : ℚ
  circulatingSupply : ℚ
  deriving DecidableEq, Repr

/-- redemptionRules subdocument (schema defaults: 2 percent fee, minimum
10 MTZ). -/
structure RedemptionRules where
  cashRedemptionFee : ℚ := 1 / 50
  minRedemption : ℚ := 10
  deriving DecidableEq, Repr

/-- Token singleton document.  `maxSupply` is supplyControl.maxSupply;
fee-structure and governance fields not read by the modelled operations are
omitted. -/
structure TokenState where
  totalSupply : ℚ := 0
  circulatingSupply : ℚ := 0
  burnedSupply : ℚ := 0
  universalPrice : ℚ := 50
  redemptionRules : RedemptionRules := {}
  maxSupply : ℚ := 10000000
  activities : List TokenActivityEntry := []
  deriving DecidableEq, Repr

/-- Token.mintTokens (Token.js lines 419-444): throws before any mutation
when `totalSupply + amount > maxSupply`; otherwise adds `amount` to total
and circulating supply and appends a mint activity entry carrying the new
supply snapshot. -/
def mintTokens (tk : TokenState) (amount : ℚ) : Except String TokenState :=
  if tk.totalSupply + amount > tk.maxSupply then
    .error "Minting would exceed maximum supply"
  else
    .ok { tk with
      totalSupply := tk.totalSupply + amount
      circulatingSupply := tk.circulatingSupply + amount
      activities := tk.activities ++
        [{ kind := .mint, amount := amount,
           totalSupply := tk.totalSupply + amount,
           circulatingSupply := tk.circulatingSupply + amount }] }

/-- Token.burnTokens (Token.js lines 446-470): throws before any mutation
when `circulatingSupply < amount`; otherwise moves `amount` from
circulating to burned supply (totalSupply unchanged) and appends a burn
activity entry. -/
def burnTokens (tk : TokenState) (amount : ℚ) : Except String TokenState :=
  if tk.circulatingSupply < amount then
    .error "Insufficient circulating supply to burn"
  else
    .ok { tk with
      circulatingSupply := tk.circulatingSupply - amount
      burnedSupply := tk.burnedSupply + amount
      activities := tk.activities ++
        [{ kind := .burn, amount := amount,
           totalSupply := tk.totalSupply,
           circulatingSupply := tk.circulatingSupply - amount }] }

/-! ## Users, depots and KCC branches -/

inductive Role
  | farmer | attendant | admin | kcc_attendant | kcc_admin
  deriving DecidableEq, Repr

/-- Entity status: the controllers only ever compare status with the string
active, so the remaining enum values (inactive, pending, seasonal_closure,
...) are collapsed into `inactive`. -/
inductive EntStatus
  | active | inactive
  deriving DecidableEq, Repr

/-- User document (src/app.js user schema): the fields the modelled
controllers read. -/
structure User where
  role : Role
  status : EntStatus := .active
  assignedDepot : Option Nat := none
  assignedKcc : Option Nat := none
  deriving DecidableEq, Repr

/-- KCC branch document: the fields the modelled controllers read. -/
structure Kcc where
  county : String := ""
  status : EntStatus := .active
  deriving DecidableEq, Repr

inductive SignalStatus
  | available | accepted | completed | cancelled | expired
  deriving DecidableEq, Repr

/-- Depot pickupSignal subdocument (Depot.js lines 41-65); a cleared or
null-status signal is represented by `none` at the depot level. -/
structure PickupSignal where
  estimatedLiters : ℚ := 0
  acceptedBy : Option UserId := none
  status : SignalStatus := .available
  expiresAt : Option Int := none
  deriving DecidableEq, Repr

structure DepotStock where
  rawMilk : ℚ := 0
  pasteurizedMilk : ℚ := 0
  capacity : ℚ := 0
  deriving DecidableEq, Repr

/-- Depot document (src/models/Depot.js): the fields the modelled
controllers read. -/
structure Depot where
  county : String := ""
  stock : DepotStock := {}
  status : EntStatus := .active
  assignedAttendant : Option UserId := none
  pickupSignal : Option PickupSignal := none
  deriving DecidableEq, Repr

/-! ## System state -/

/-- Durable state: every collection the modelled operations read or write,
plus the admin user id (process.env.ADMIN_USER_ID) used as the fee sink.
`nextTxnId` supplies fresh transaction ids. -/
structure Sys where
  adminId : UserId := 0
  users : List (UserId × User) := []
  kccs : List (Nat × Kcc) := []
  depots : List (Nat × Depot) := []
  wallets : WStore := []
  txns : List Txn := []
  nextTxnId : Nat := 0
  token : TokenState := {}
  deriving DecidableEq, Repr

/-- Saving a new Transaction document: runs the schema validators and
appends to the collection. -/
def saveTxn (σ : Sys) (t : Txn) : Except String Sys :=
  if txnValid t then
    .ok { σ with txns := σ.txns ++ [t], nextTxnId := σ.nextTxnId + 1 }
  else .error "ValidationError: Transaction fields below minimum"

/-- Result record of the transfer statics (`fromBalance`/`toBalance`). -/
structure TransferOut where
  fromBalance : ℚ
  toBalance : ℚ
  deriving DecidableEq, Repr

/-! ## Transfer engine (Wallet statics) -/

/-- Write back the wallet collection (all other state unchanged). -/
def Sys.withWallets (σ : Sys) (ws : WStore) : Sys := { σ with wallets := ws }

@[simp] theorem withWallets_wallets (σ : Sys) (ws : WStore) :
    (σ.withWallets ws).wallets = ws := rfl

@[simp] theorem withWallets_txns (σ : Sys) (ws : WStore) :
    (σ.withWallets ws).txns = σ.txns := rfl

@[simp] theorem withWallets_nextTxnId (σ : Sys) (ws : WStore) :
    (σ.withWallets ws).nextTxnId = σ.nextTxnId := rfl

@[simp] theorem withWallets_adminId (σ : Sys) (ws : WStore) :
    (σ.withWallets ws).adminId = σ.adminId := rfl

@[simp] theorem withWallets_token (σ : Sys) (ws : WStore) :
    (σ.withWallets ws).token = σ.token := rfl

/-- Wallet.transferTokens (Wallet.js lines 143-189).  The whole body runs
inside a mongoose session transaction whose abort restores the wallet
writes, so every error branch returns the original state.  Order of
effects as in the source: load sender (error when absent), get-or-create
recipient, `canSend` gate, debit save, credit save, transaction-log append,
commit; the returned balances are re-read from the committed store. -/
def Sys.transferTokens (σ : Sys) (fromU toU : UserId) (amount : ℚ) (today : Day) :
    Sys × Except String TransferOut :=
  match assocFind σ.wallets fromU with
  | none => (σ, .error "Sender wallet not found")
  | some fromW =>
    let gc := getOrCreateWallet σ.wallets toU
    if ¬ fromW.canSend amount today then
      (σ, .error "Insufficient balance or transfer limits exceeded")
    else
      match fromW.deductTokens amount today with
      | .error e => (σ, .error e)
      | .ok fromW2 =>
        match gc.2.addTokens amount today with
        | .error e => (σ, .error e)
        | .ok toW2 =>
          let ws := assocSet (assocSet gc.1 fromU fromW2) toU toW2
          match saveTxn (σ.withWallets ws) (mkTokenTransfer σ.nextTxnId amount 0 0) with
          | .error e => (σ, .error e)
          | .ok σ2 =>
            (σ2, .ok { fromBalance := balOf (assocFind σ2.wallets fromU),
                       toBalance := balOf (assocFind σ2.wallets toU) })

/-- Wallet.transferFeeToAdmin (Wallet.js lines 86-94): credits the admin
wallet with the fee when it is positive. -/
def Sys.transferFeeToAdmin (σ : Sys) (feeAmount : ℚ) (today : Day) :
    Sys × Except String Unit :=
  if feeAmount > 0 then
    let gc := getOrCreateWallet σ.wallets σ.adminId
    match gc.2.addTokens feeAmount today with
    | .error e => (σ.withWallets gc.1, .error e)
    | .ok aw2 => (σ.withWallets (assocSet gc.1 σ.adminId aw2), .ok ())
  else (σ, .ok ())

/-- fees.rate as computed at the transferTokensWithFees call site:
`feeAmount / amount`.  In ℚ a zero amount yields 0, which matches the JS
value stored when feeAmount is also 0 (NaN is falsy, so the model applies
`|| 0`); for feeAmount > 0 with amount = 0 JS stores Infinity — a junk
value that no modelled operation ever reads. -/
def jsFeeRate (feeAmount amount : ℚ) : ℚ := feeAmount / amount

/-- Wallet.transferTokensWithFees (Wallet.js lines 96-141).  The static
takes an optional session which defaults to null and no caller in the
repository supplies one, so each save is applied eagerly: an error raised
after the sender debit leaves the debit (and any wallet creation) in
place.  Order of effects as in the source: load sender, get-or-create
recipient, single `canSend` gate on `amount + feeAmount`, debit save,
recipient credit save, fee credit to the admin wallet, transaction-log
append recording the fee breakdown. -/
def Sys.transferTokensWithFees (σ : Sys) (fromU toU : UserId)
    (amount feeAmount : ℚ) (today : Day) : Sys × Except String TransferOut :=
  match assocFind σ.wallets fromU with
  | none => (σ, .error "Sender wallet not found")
  | some fromW =>
    let gc := getOrCreateWallet σ.wallets toU
    let σ1 := σ.withWallets gc.1
    if ¬ fromW.canSend (amount + feeAmount) today then
      (σ1, .error "Insufficient balance for amount plus fees")
    else
      match fromW.deductTokens (amount + feeAmount) today with
      | .error e => (σ1, .error e)
      | .ok fromW2 =>
        let σ2 := σ1.withWallets (assocSet σ1.wallets fromU fromW2)
        match gc.2.addTokens amount today with
        | .error e => (σ2, .error e)
        | .ok toW2 =>
          let σ3 := σ2.withWallets (assocSet σ2.wallets toU toW2)
          match σ3.transferFeeToAdmin feeAmount today with
          | (σ4, .error e) => (σ4, .error e)
          | (σ4, .ok _) =>
            match saveTxn σ4
                (mkTokenTransfer σ4.nextTxnId amount feeAmount (jsFeeRate feeAmount amount)) with
            | .error e => (σ4, .error e)
            | .ok σ5 =>
              (σ5, .ok { fromBalance := fromW2.balance, toBalance := toW2.balance })

/-! ## Transfer-engine lemmas and claims C1, C3, C4 -/

/-- Boolean success test on an operation result. -/
def resOk {ε α : Type} : Except ε α → Bool
  | .ok _ => true
  | .error _ => false

theorem creditApply_balance (w : Wallet) (a : ℚ) (now : Day) :
    (w.creditApply a now).balance = w.balance + a := rfl

theorem deductApply_balance (w : Wallet) (a : ℚ) (d : Day) :
    (w.deductApply a d).balance = w.balance - a := rfl

theorem addTokens_ok_iff (w : Wallet) (a : ℚ) (now : Day) (w2 : Wallet) :
    w.addTokens a now = .ok w2 ↔
      ¬ (w.creditApply a now).balance < 0 ∧ w2 = w.creditApply a now := by
  unfold Wallet.addTokens
  by_cases hv : (w.creditApply a now).balance < 0
  · simp [hv]
  · simp [hv, eq_comm]

theorem saveTxn_ok (σ σ2 : Sys) (t : Txn) (h : saveTxn σ t = .ok σ2) :
    σ2 = { σ with txns := σ.txns ++ [t], nextTxnId := σ.nextTxnId + 1 } := by
  unfold saveTxn at h
  by_cases hv : txnValid t = true
  · simp [hv] at h
    exact h.symm
  · simp [hv] at h

theorem saveTxn_error_of_invalid (σ : Sys) (t : Txn) (h : txnValid t = false) :
    saveTxn σ t = .error "ValidationError: Transaction fields below minimum" := by
  unfold saveTxn
  simp [h]

/-- Claim C1 (amended): Wallet.transferTokens is atomic.  On every error the
returned state is the original one (the session abort restores the wallet
saves, and the log entry failing to save means it was never persisted); on
success the sender debit, the recipient credit and the token_transfer log
append have all taken effect (the balance characterization stated for
distinct sender and recipient). -/
theorem transferTokens_atomic (σ : Sys) (f t : UserId) (a : ℚ) (d : Day) :
    (resOk (σ.transferTokens f t a d).2 = false → (σ.transferTokens f t a d).1 = σ) ∧
    (resOk (σ.transferTokens f t a d).2 = true →
      (σ.transferTokens f t a d).1.txns = σ.txns ++ [mkTokenTransfer σ.nextTxnId a 0 0] ∧
      (f ≠ t →
        balOf (assocFind (σ.transferTokens f t a d).1.wallets f)
          = balOf (assocFind σ.wallets f) - a ∧
        balOf (assocFind (σ.transferTokens f t a d).1.wallets t)
          = balOf (assocFind σ.wallets t) + a)) := by
  unfold Sys.transferTokens
  rcases hf : assocFind σ.wallets f with - | fromW
  · simp [resOk]
  · simp only [hf]
    by_cases hcs : fromW.canSend a d = true
    · rw [if_neg (not_not_intro hcs)]
      rcases hdt : fromW.deductTokens a d with e | fromW2
      · simp [resOk]
      · simp only []
        rcases hat : (getOrCreateWallet σ.wallets t).2.addTokens a d with e | toW2
        · simp [resOk]
        · simp only []
          rcases hs : saveTxn
              (σ.withWallets (assocSet (assocSet (getOrCreateWallet σ.wallets t).1 f fromW2) t toW2))
              (mkTokenTransfer σ.nextTxnId a 0 0) with e | σ2
          · simp [resOk]
          · have hσ2 := saveTxn_ok _ _ _ hs
            simp only [hσ2, resOk]
            refine ⟨by simp, fun _ => ⟨by simp, fun hft => ?_⟩⟩
            have hfind_t :
                assocFind (assocSet (assocSet (getOrCreateWallet σ.wallets t).1 f fromW2) t toW2) t
                  = some toW2 := assocFind_set_self _ t toW2
            have hfind_f :
                assocFind (assocSet (assocSet (getOrCreateWallet σ.wallets t).1 f fromW2) t toW2) f
                  = some fromW2 := by
              rw [assocFind_set_ne _ t f toW2 hft, assocFind_set_self]
            obtain ⟨-, -, hfw2⟩ := (deductTokens_ok_iff fromW a d fromW2).mp hdt
            obtain ⟨-, htw2⟩ := (addTokens_ok_iff _ a d toW2).mp hat
            subst hfw2
            subst htw2
            constructor
            · simp only [withWallets_wallets, hfind_f, hf, balOf_some, deductApply_balance]
            · simp only [withWallets_wallets, hfind_t, balOf_some, creditApply_balance,
                getOrCreateWallet_balOf]
    · rw [if_pos hcs]
      simp [resOk]

/-- Concrete two-wallet store: user 1 holds 100 MTZ, user 2 holds 0. -/
def sysTwoWallets : Sys :=
  { wallets := [(1, { balance := 100 }), (2, { balance := 0 })] }

/-- Witness for `transferTokens_atomic`: a successful 30 MTZ transfer from
user 1 to user 2 appends the log entry and moves exactly 30 MTZ. -/
theorem transferTokens_atomic_witness :
    (sysTwoWallets.transferTokens 1 2 30 0).1.txns
        = sysTwoWallets.txns ++ [mkTokenTransfer sysTwoWallets.nextTxnId 30 0 0] ∧
      balOf (assocFind (sysTwoWallets.transferTokens 1 2 30 0).1.wallets 1)
        = balOf (assocFind sysTwoWallets.wallets 1) - 30 := by
  have h := (transferTokens_atomic sysTwoWallets 1 2 30 0).2 (by
    norm_num [sysTwoWallets, Sys.transferTokens, getOrCreateWallet, assocFind, assocSet,
      Wallet.canSend, Wallet.deductTokens, Wallet.deductApply, Wallet.addTokens,
      Wallet.creditApply, saveTxn, txnValid, mkTokenTransfer, resOk, balOf])
  exact ⟨h.1, (h.2 (by norm_num)).1⟩

/-- Counterexample to claim C1 as stated: transferTokensWithFees runs
without a session (its default, and no caller supplies one), so when the
recipient credit fails — here a negative amount whose credit would drive
the recipient balance below zero — the already-saved sender debit is not
rolled back: the call errors yet user 1's balance moved from 100 to 95. -/
theorem transferTokensWithFees_partial_counterexample :
    resOk (sysTwoWallets.transferTokensWithFees 1 2 (-5) 10 0).2 = false ∧
      balOf (assocFind (sysTwoWallets.transferTokensWithFees 1 2 (-5) 10 0).1.wallets 1) = 95 ∧
      balOf (assocFind sysTwoWallets.wallets 1) = 100 := by
  norm_num [sysTwoWallets, Sys.transferTokensWithFees, Sys.transferFeeToAdmin,
    getOrCreateWallet, assocFind, assocSet, Wallet.canSend, Wallet.deductTokens,
    Wallet.deductApply, Wallet.addTokens, Wallet.creditApply, saveTxn, txnValid,
    mkTokenTransfer, jsFeeRate, resOk, balOf]

/-- Claim C3 (amended): the transfer engine does not itself validate
non-positive amounts; a negative-amount transferTokens call is still
rejected with no mutation, but only because the transaction document's
`tokensAmount min: 0` validation fails inside the session, whose abort
restores the wallet writes. -/
theorem transferTokens_rejects_negative (σ : Sys) (f t : UserId) (a : ℚ) (d : Day)
    (ha : a < 0) :
    resOk (σ.transferTokens f t a d).2 = false ∧ (σ.transferTokens f t a d).1 = σ := by
  have hinvalid : txnValid (mkTokenTransfer σ.nextTxnId a 0 0) = false := by
    simp [txnValid, mkTokenTransfer, not_le.mpr ha]
  unfold Sys.transferTokens
  rcases hf : assocFind σ.wallets f with - | fromW
  · simp [resOk]
  · simp only [hf]
    by_cases hcs : fromW.canSend a d = true
    · rw [if_neg (not_not_intro hcs)]
      rcases hdt : fromW.deductTokens a d with e | fromW2
      · simp [resOk]
      · simp only []
        rcases hat : (getOrCreateWallet σ.wallets t).2.addTokens a d with e | toW2
        · simp [resOk]
        · simp only [saveTxn_error_of_invalid _ _ hinvalid]
          simp [resOk]
    · rw [if_pos hcs]
      simp [resOk]

/-- Witness for `transferTokens_rejects_negative`: a -5 MTZ transfer is
rejected and the state is untouched. -/
theorem transferTokens_rejects_negative_witness :
    resOk (sysTwoWallets.transferTokens 1 2 (-5) 0).2 = false ∧
      (sysTwoWallets.transferTokens 1 2 (-5) 0).1 = sysTwoWallets :=
  transferTokens_rejects_negative sysTwoWallets 1 2 (-5) 0 (by norm_num)

/-- Concrete one-wallet store: user 1 holds 100 MTZ. -/
def sysOneWallet : Sys := { wallets := [(1, { balance := 100 })] }

/-- Counterexample to claim C3 as stated: a zero-amount transferTokens call
is not rejected — it succeeds (canSend passes at amount 0) and even appends
a token_transfer log entry. -/
theorem transfer_zero_amount_accepted_counterexample :
    resOk (sysOneWallet.transferTokens 1 2 0 0).2 = true ∧
      (sysOneWallet.transferTokens 1 2 0 0).1.txns.length = 1 := by
  norm_num [sysOneWallet, Sys.transferTokens, getOrCreateWallet, assocFind, assocSet,
    Wallet.canSend, Wallet.deductTokens, Wallet.deductApply, Wallet.addTokens,
    Wallet.creditApply, saveTxn, txnValid, mkTokenTransfer, resOk, balOf]

theorem deductTokens_ok_balance (w w2 : Wallet) (a : ℚ) (d : Day)
    (h : w.deductTokens a d = .ok w2) : w2.balance = w.balance - a := by
  obtain ⟨-, -, rfl⟩ := (deductTokens_ok_iff w a d w2).mp h
  exact deductApply_balance w a d

theorem addTokens_ok_balance (w w2 : Wallet) (a : ℚ) (now : Day)
    (h : w.addTokens a now = .ok w2) : w2.balance = w.balance + a := by
  obtain ⟨-, rfl⟩ := (addTokens_ok_iff w a now w2).mp h
  exact creditApply_balance w a now

theorem transferFeeToAdmin_ok (σ σ4 : Sys) (fee : ℚ) (d : Day) (u : Unit)
    (hfee : 0 ≤ fee) (h : σ.transferFeeToAdmin fee d = (σ4, .ok u)) :
    walletSum σ4.wallets = walletSum σ.wallets + fee ∧
      σ4.txns = σ.txns ∧ σ4.nextTxnId = σ.nextTxnId := by
  unfold Sys.transferFeeToAdmin at h
  by_cases hpos : fee > 0
  · simp only [hpos, if_true] at h
    rcases hat : (getOrCreateWallet σ.wallets σ.adminId).2.addTokens fee d with e | aw2
    · rw [hat] at h
      simp at h
    · rw [hat] at h
      simp only [Prod.mk.injEq] at h
      obtain ⟨rfl, -⟩ := h
      refine ⟨?_, rfl, rfl⟩
      simp only [withWallets_wallets, withWallets_txns, walletSum_set,
        getOrCreateWallet_find_self, balOf_some,
        addTokens_ok_balance _ _ fee d hat, getOrCreateWallet_balOf,
        getOrCreateWallet_sum]
      ring
  · simp only [hpos, if_false, Prod.mk.injEq] at h
    obtain ⟨rfl, -⟩ := h
    have hz : fee = 0 := le_antisymm (not_lt.mp hpos) hfee
    simp [hz]

/-- Claim C4 (amended): a successful transferTokens or
transferTokensWithFees call preserves the sum of all wallet balances,
provided the sender and recipient are distinct users and (for the fees
variant) the fee is non-negative.  When sender = recipient the stale
recipient snapshot's save overwrites the debit, and a negative fee is
debited from the sender without any matching credit, so both hypotheses are
forced (see the counterexample). -/
theorem transfer_conserves_total_balance (σ : Sys) (f t : UserId) (a fee : ℚ)
    (d : Day) (hft : f ≠ t) :
    (resOk (σ.transferTokens f t a d).2 = true →
      walletSum (σ.transferTokens f t a d).1.wallets = walletSum σ.wallets) ∧
    (0 ≤ fee → resOk (σ.transferTokensWithFees f t a fee d).2 = true →
      walletSum (σ.transferTokensWithFees f t a fee d).1.wallets = walletSum σ.wallets) := by
  constructor
  · unfold Sys.transferTokens
    rcases hf : assocFind σ.wallets f with - | fromW
    · simp [resOk]
    · simp only [hf]
      by_cases hcs : fromW.canSend a d = true
      · rw [if_neg (not_not_intro hcs)]
        rcases hdt : fromW.deductTokens a d with e | fromW2
        · simp [resOk]
        · simp only []
          rcases hat : (getOrCreateWallet σ.wallets t).2.addTokens a d with e | toW2
          · simp [resOk]
          · simp only []
            rcases hs : saveTxn
                (σ.withWallets (assocSet (assocSet (getOrCreateWallet σ.wallets t).1 f fromW2) t toW2))
                (mkTokenTransfer σ.nextTxnId a 0 0) with e | σ2
            · simp [resOk]
            · have hσ2 := saveTxn_ok _ _ _ hs
              intro _
              simp only [hσ2, withWallets_wallets]
              show walletSum (assocSet
                  (assocSet (getOrCreateWallet σ.wallets t).1 f fromW2) t toW2)
                = walletSum σ.wallets
              rw [walletSum_set, walletSum_set,
                assocFind_set_ne _ f t fromW2 (Ne.symm hft),
                getOrCreateWallet_find_self, getOrCreateWallet_find_other _ t f hft,
                hf, getOrCreateWallet_sum,
                addTokens_ok_balance _ _ a d hat,
                deductTokens_ok_balance _ _ a d hdt]
              simp only [balOf, getOrCreateWallet_balOf]
              ring
      · rw [if_pos hcs]
        simp [resOk]
  · intro hfee
    unfold Sys.transferTokensWithFees
    rcases hf : assocFind σ.wallets f with - | fromW
    · simp [resOk]
    · simp only [hf]
      by_cases hcs : fromW.canSend (a + fee) d = true
      · rw [if_neg (not_not_intro hcs)]
        rcases hdt : fromW.deductTokens (a + fee) d with e | fromW2
        · simp [resOk]
        · simp only []
          rcases hat : (getOrCreateWallet σ.wallets t).2.addTokens a d with e | toW2
          · simp [resOk]
          · simp only []
            rcases hfa : Sys.transferFeeToAdmin
                (((σ.withWallets (getOrCreateWallet σ.wallets t).1).withWallets
                    (assocSet (σ.withWallets (getOrCreateWallet σ.wallets t).1).wallets f fromW2)).withWallets
                  (assocSet ((σ.withWallets (getOrCreateWallet σ.wallets t).1).withWallets
                    (assocSet (σ.withWallets (getOrCreateWallet σ.wallets t).1).wallets f fromW2)).wallets t toW2))
                fee d with ⟨σ4, r4⟩
            rcases r4 with e | u4
            · simp [hfa, resOk]
            · simp only [hfa]
              rcases hs : saveTxn σ4
                  (mkTokenTransfer σ4.nextTxnId a fee (jsFeeRate fee a)) with e | σ5
              · simp [resOk]
              · have hσ5 := saveTxn_ok _ _ _ hs
                intro _
                simp only [hσ5]
                obtain ⟨hsum4, -, -⟩ := transferFeeToAdmin_ok _ _ fee d u4 hfee hfa
                show walletSum σ4.wallets = walletSum σ.wallets
                rw [hsum4]
                simp only [withWallets_wallets]
                rw [walletSum_set, walletSum_set,
                  assocFind_set_ne _ f t fromW2 (Ne.symm hft),
                  getOrCreateWallet_find_self, getOrCreateWallet_find_other _ t f hft,
                  hf, getOrCreateWallet_sum,
                  addTokens_ok_balance _ _ a d hat,
                  deductTokens_ok_balance _ _ (a + fee) d hdt]
                simp only [balOf, getOrCreateWallet_balOf]
                ring
      · rw [if_pos hcs]
        simp [resOk]

/-- Witness for `transfer_conserves_total_balance`: both engine operations
succeed on the two-wallet store (30 MTZ transfer; 30 MTZ + 5 MTZ fee) and
keep the total at 100. -/
theorem transfer_conserves_total_balance_witness :
    walletSum (sysTwoWallets.transferTokens 1 2 30 0).1.wallets
        = walletSum sysTwoWallets.wallets ∧
      walletSum (sysTwoWallets.transferTokensWithFees 1 2 30 5 0).1.wallets
        = walletSum sysTwoWallets.wallets := by
  constructor
  · exact (transfer_conserves_total_balance sysTwoWallets 1 2 30 5 0 (by norm_num)).1 (by
      norm_num [sysTwoWallets, Sys.transferTokens, getOrCreateWallet, assocFind, assocSet,
        Wallet.canSend, Wallet.deductTokens, Wallet.deductApply, Wallet.addTokens,
        Wallet.creditApply, saveTxn, txnValid, mkTokenTransfer, resOk, balOf])
  · exact (transfer_conserves_total_balance sysTwoWallets 1 2 30 5 0 (by norm_num)).2
      (by norm_num) (by
      norm_num [sysTwoWallets, Sys.transferTokensWithFees, Sys.transferFeeToAdmin,
        getOrCreateWallet, assocFind, assocSet, Wallet.canSend, Wallet.deductTokens,
        Wallet.deductApply, Wallet.addTokens, Wallet.creditApply, saveTxn, txnValid,
        mkTokenTransfer, jsFeeRate, resOk, balOf])

/-- Counterexample to claim C4 as stated: a successful self-transfer
(sender = recipient) makes the stale recipient save overwrite the debit and
the total grows from 100 to 130; a successful transferTokensWithFees call
with a negative fee (-3) debits 7 but credits 10, growing the total to 103.
Value is created by both, so the conservation claim fails without the
distinctness and non-negative-fee hypotheses. -/
theorem conservation_violated_counterexample :
    (resOk (sysOneWallet.transferTokens 1 1 30 0).2 = true ∧
      walletSum (sysOneWallet.transferTokens 1 1 30 0).1.wallets = 130 ∧
      walletSum sysOneWallet.wallets = 100) ∧
    (resOk (sysTwoWallets.transferTokensWithFees 1 2 10 (-3) 0).2 = true ∧
      walletSum (sysTwoWallets.transferTokensWithFees 1 2 10 (-3) 0).1.wallets = 103 ∧
      walletSum sysTwoWallets.wallets = 100) := by
  constructor
  · norm_num [sysOneWallet, Sys.transferTokens, getOrCreateWallet, assocFind, assocSet,
      Wallet.canSend, Wallet.deductTokens, Wallet.deductApply, Wallet.addTokens,
      Wallet.creditApply, saveTxn, txnValid, mkTokenTransfer, resOk, balOf, walletSum]
  · norm_num [sysTwoWallets, Sys.transferTokensWithFees, Sys.transferFeeToAdmin,
      getOrCreateWallet, assocFind, assocSet, Wallet.canSend, Wallet.deductTokens,
      Wallet.deductApply, Wallet.addTokens, Wallet.creditApply, saveTxn, txnValid,
      mkTokenTransfer, jsFeeRate, resOk, balOf, walletSum]

/-! ## Claim C5: token supply identity -/

/-- Claim C5: assuming `totalSupply = circulatingSupply + burnedSupply`
held before, it holds after every successful mintTokens and burnTokens
call; mintTokens fails exactly when `totalSupply + amount` would exceed
`maxSupply`, and burnTokens fails exactly when `circulatingSupply <
amount` — both failures are raised before any counter is written, so the
supply counters are unchanged (an erroring operation yields no new token
state). -/
theorem token_supply_identity (tk : TokenState) (a b : ℚ)
    (hid : tk.totalSupply = tk.circulatingSupply + tk.burnedSupply) :
    (∀ tk2, mintTokens tk a = .ok tk2 →
      tk2.totalSupply = tk2.circulatingSupply + tk2.burnedSupply) ∧
    (mintTokens tk a = .error "Minting would exceed maximum supply" ↔
      tk.totalSupply + a > tk.maxSupply) ∧
    (∀ tk2, burnTokens tk b = .ok tk2 →
      tk2.totalSupply = tk2.circulatingSupply + tk2.burnedSupply) ∧
    (burnTokens tk b = .error "Insufficient circulating supply to burn" ↔
      tk.circulatingSupply < b) := by
  refine ⟨?_, ?_, ?_, ?_⟩
  · intro tk2 h
    unfold mintTokens at h
    by_cases hmax : tk.totalSupply + a > tk.maxSupply
    · rw [if_pos hmax] at h
      simp at h
    · rw [if_neg hmax] at h
      simp only [Except.ok.injEq] at h
      obtain rfl := h
      dsimp only
      linarith
  · unfold mintTokens
    by_cases hmax : tk.totalSupply + a > tk.maxSupply
    · simp [hmax]
    · simp [hmax]
  · intro tk2 h
    unfold burnTokens at h
    by_cases hb : tk.circulatingSupply < b
    · rw [if_pos hb] at h
      simp at h
    · rw [if_neg hb] at h
      simp only [Except.ok.injEq] at h
      obtain rfl := h
      dsimp only
      linarith
  · unfold burnTokens
    by_cases hb : tk.circulatingSupply < b
    · simp [hb]
    · simp [hb]

/-- Concrete token state: 100 total = 60 circulating + 40 burned. -/
def tokenSample : TokenState :=
  { totalSupply := 100, circulatingSupply := 60, burnedSupply := 40 }

/-- Witness for `token_supply_identity`: minting 50 MTZ succeeds and the
identity holds on the result (150 = 110 + 40). -/
theorem token_supply_identity_witness :
    ∃ tk2, mintTokens tokenSample 50 = .ok tk2 ∧
      tk2.totalSupply = tk2.circulatingSupply + tk2.burnedSupply := by
  have hok : resOk (mintTokens tokenSample 50) = true := by
    norm_num [mintTokens, tokenSample, resOk]
  rcases hm : mintTokens tokenSample 50 with e | tk2
  · rw [hm] at hok
    simp [resOk] at hok
  · exact ⟨tk2, rfl,
      (token_supply_identity tokenSample 50 0 (by norm_num [tokenSample])).1 tk2 hm⟩

/-! ## Controller layer: error taxonomy and lookups -/

/-- Stable error kinds of the HTTP layer, following the taxonomy of the
error-handling design; each embedded controller branch is tagged with the
kind its response expresses (`internal` marks a thrown error swallowed by
the generic catch block). -/
inductive ErrKind
  | notFound | unauthorized | invalidInput | insufficientFunds | insufficientStock
  | invalidState | expired | conflict | internal
  deriving DecidableEq, Repr

/-- Structured pending-pickup totals returned with a rejection. -/
structure PendingInfo where
  count : Nat
  totalLiters : ℚ
  totalCost : ℚ
  deriving DecidableEq, Repr

/-- An error response: HTTP status, error kind, and optional structured
pending-pickup data. -/
structure ApiErr where
  status : Nat
  kind : ErrKind
  pending : Option PendingInfo := none
  deriving DecidableEq, Repr

/-- Transaction.findOne of the deposit-settlement query
(depotController.js lines 577-582): the pending milk_deposit with the given
id in the given depot. -/
def findPendingMilkDeposit : List Txn → Nat → Nat → Option Txn
  | [], _, _ => none
  | t :: rest, tid, depotId =>
    if t.id = tid ∧ t.depot = some depotId ∧ t.type = TxType.milk_deposit ∧
        t.status = TxStatus.pending
    then some t else findPendingMilkDeposit rest tid depotId

/-- Transaction.findOne of the pickup-settlement query (kccController.js
lines 363-368): the pending kcc_pickup with the given id for the given KCC
attendant. -/
def findPendingKccPickup : List Txn → Nat → UserId → Option Txn
  | [], _, _ => none
  | t :: rest, tid, aid =>
    if t.id = tid ∧ t.kccAttendant = some aid ∧ t.type = TxType.kcc_pickup ∧
        t.status = TxStatus.pending
    then some t else findPendingKccPickup rest tid aid

/-- Transaction.find of the unpaid-pickups query (kccController.js lines
211-215 and 931-935): every pending kcc_pickup of the attendant. -/
def pendingPickupsOf : List Txn → UserId → List Txn
  | [], _ => []
  | t :: rest, aid =>
    if t.kccAttendant = some aid ∧ t.type = TxType.kcc_pickup ∧
        t.status = TxStatus.pending
    then t :: pendingPickupsOf rest aid
    else pendingPickupsOf rest aid

/-- Total raw liters of a transaction list (the reduce over litersRaw that
builds the rejection totals; totalCost is the same number, 1 L = 1 MTZ). -/
def sumLiters (ts : List Txn) : ℚ := (ts.map (fun t => t.litersRaw)).sum

/-- The 400 rejection carrying the unpaid-pickup totals (count, total
liters, total cost at 1 MTZ per liter) that both recordKccPickup and
acceptPickupSignal return while pending pickups exist. -/
def pendingRejection (pend : List Txn) : ApiErr :=
  { status := 400, kind := .conflict,
    pending := some { count := pend.length, totalLiters := sumLiters pend,
                      totalCost := sumLiters pend } }

/-- User.findOne of the depot-attendant query (kccController.js line 244):
an active user with role attendant assigned to the depot. -/
def findDepotAttendant : List (UserId × User) → Nat → Option UserId
  | [], _ => none
  | (uid, u) :: rest, depotId =>
    if u.assignedDepot = some depotId ∧ u.role = Role.attendant ∧
        u.status = EntStatus.active
    then some uid else findDepotAttendant rest depotId

/-- Document update of the two-phase settlement: replace the transaction
with the given id by its completed version. -/
def updateTxn (txns : List Txn) (t2 : Txn) : List Txn :=
  txns.map (fun t => if t.id = t2.id then t2 else t)

/-! ## Claim C6: settling an already-completed transaction -/

/-- depotController.processTokenPayment (lines 559-656): settlement of a
pending milk deposit.  Auth gate on the attendant's depot assignment, then
the pending-transaction lookup (a completed transaction simply fails the
`status: pending` query and yields the 404 branch), balance pre-check,
transferTokens from attendant to farmer, and the transaction update to
completed.  A thrown error (missing attendant document, transfer failure)
lands in the catch block as a 400. -/
def Sys.processTokenPayment (σ : Sys) (attendantId : UserId) (depotId : Nat)
    (transactionId : Nat) (today : Day) : Sys × Except ApiErr TransferOut :=
  match assocFind σ.users attendantId with
  | none => (σ, .error { status := 400, kind := .internal })
  | some att =>
    if att.assignedDepot ≠ some depotId then
      (σ, .error { status := 403, kind := .unauthorized })
    else
      match findPendingMilkDeposit σ.txns transactionId depotId with
      | none => (σ, .error { status := 404, kind := .notFound })
      | some depositTx =>
        match depositTx.fromUser with
        | none => (σ, .error { status := 400, kind := .internal })
        | some farmerId =>
          let tokensAmount := depositTx.litersRaw
          let gw := getOrCreateWallet σ.wallets attendantId
          let σ1 := σ.withWallets gw.1
          if gw.2.balance < tokensAmount then
            (σ1, .error { status := 400, kind := .insufficientFunds })
          else
            match σ1.transferTokens attendantId farmerId tokensAmount today with
            | (σ2, .error _) => (σ2, .error { status := 400, kind := .internal })
            | (σ2, .ok out) =>
              let depositTx2 : Txn :=
                { depositTx with tokensAmount := tokensAmount, status := .completed }
              let σ3 := { σ2 with txns := updateTxn σ2.txns depositTx2 }
              (σ3, .ok out)

/-- kccController.processKccPayment (lines 357-441): settlement of a
pending KCC pickup.  The pending-transaction lookup (an already-completed
pickup fails the `status: pending` query and yields the 404 branch),
balance pre-check, transferTokens from the KCC attendant to the depot
attendant, and the transaction update to completed. -/
def Sys.processKccPayment (σ : Sys) (kccAttendantId : UserId)
    (transactionId : Nat) (today : Day) : Sys × Except ApiErr TransferOut :=
  match findPendingKccPickup σ.txns transactionId kccAttendantId with
  | none => (σ, .error { status := 404, kind := .notFound })
  | some pickupTx =>
    match pickupTx.fromUser with
    | none => (σ, .error { status := 400, kind := .internal })
    | some depotAttendantId =>
      let liters := pickupTx.litersRaw
      let gw := getOrCreateWallet σ.wallets kccAttendantId
      let σ1 := σ.withWallets gw.1
      if gw.2.balance < liters then
        (σ1, .error { status := 400, kind := .insufficientFunds })
      else
        match σ1.transferTokens kccAttendantId depotAttendantId liters today with
        | (σ2, .error _) => (σ2, .error { status := 400, kind := .internal })
        | (σ2, .ok out) =>
          let pickupTx2 : Txn :=
            { pickupTx with tokensAmount := liters, status := .completed }
          let σ3 := { σ2 with txns := updateTxn σ2.txns pickupTx2 }
          (σ3, .ok out)

/-! ## Claim C8: one outstanding pickup batch per attendant -/

/-- depot.isPickupSignalExpired (Depot.js lines 191-194): false without a
signal or deadline, otherwise `now > expiresAt`. -/
def signalExpired (depot : Depot) (now : Int) : Bool :=
  match depot.pickupSignal with
  | none => false
  | some sig =>
    match sig.expiresAt with
    | none => false
    | some e => now > e

/-- Condition under which checkAndExpirePickupSignal writes: a signal
exists, is expired, and is still available (Depot.js lines 197-203). -/
def needsExpiry (depot : Depot) (now : Int) : Bool :=
  match depot.pickupSignal with
  | none => false
  | some sig =>
    if sig.status = SignalStatus.available then signalExpired depot now else false

/-- depot.checkAndExpirePickupSignal: transition an overdue available
signal to expired. -/
def checkAndExpireSignal (depot : Depot) (now : Int) : Depot :=
  match depot.pickupSignal with
  | some sig =>
    if needsExpiry depot now then
      { depot with pickupSignal := some { sig with status := .expired } }
    else depot
  | none => depot

/-- kccController.recordKccPickup (lines 188-352): step 1 of the pickup
workflow.  Role and active-branch gates, then the unpaid-pickups gate
(rejecting with the pending totals before any mutation), depot and
depot-attendant lookups, stock check, wallet pre-flight check on the 1:1
cost, stock decrement via removeMilkStock (which re-checks the stock), and
creation of the pending kcc_pickup transaction.  The ok value is the new
transaction id. -/
def Sys.recordKccPickup (σ : Sys) (kccAttendantId : UserId) (depotId : Nat)
    (litersRaw : ℚ) : Sys × Except ApiErr Nat :=
  match assocFind σ.users kccAttendantId with
  | none => (σ, .error { status := 403, kind := .unauthorized })
  | some u =>
    if u.role ≠ Role.kcc_attendant then
      (σ, .error { status := 403, kind := .unauthorized })
    else
      match u.assignedKcc with
      | none => (σ, .error { status := 400, kind := .unauthorized })
      | some kid =>
        match assocFind σ.kccs kid with
        | none => (σ, .error { status := 400, kind := .unauthorized })
        | some k =>
          if k.status ≠ EntStatus.active then
            (σ, .error { status := 400, kind := .unauthorized })
          else
            let pend := pendingPickupsOf σ.txns kccAttendantId
            if pend ≠ [] then
              (σ, .error (pendingRejection pend))
            else
              match assocFind σ.depots depotId with
              | none => (σ, .error { status := 404, kind := .notFound })
              | some depot =>
                match findDepotAttendant σ.users depotId with
                | none => (σ, .error { status := 400, kind := .notFound })
                | some depotAttendantId =>
                  if depot.stock.rawMilk < litersRaw then
                    (σ, .error { status := 400, kind := .insufficientStock })
                  else
                    let gw := getOrCreateWallet σ.wallets kccAttendantId
                    let σ1 := σ.withWallets gw.1
                    if gw.2.balance < litersRaw then
                      (σ1, .error { status := 400, kind := .insufficientFunds })
                    else
                      if depot.stock.rawMilk < litersRaw then
                        (σ1, .error { status := 400, kind := .insufficientStock })
                      else
                        let depot2 := { depot with stock :=
                          { depot.stock with rawMilk := depot.stock.rawMilk - litersRaw } }
                        let σ2 := { σ1 with depots := assocSet σ1.depots depotId depot2 }
                        let tx : Txn :=
                          { id := σ2.nextTxnId, type := .kcc_pickup,
                            fromUser := some depotAttendantId,
                            toUser := some kccAttendantId,
                            attendant := some kccAttendantId,
                            kccAttendant := some kccAttendantId,
                            depot := some depotId, litersRaw := litersRaw,
                            tokensAmount := 0, status := .pending }
                        match saveTxn σ2 tx with
                        | .error _ => (σ2, .error { status := 500, kind := .internal })
                        | .ok σ3 => (σ3, .ok tx.id)

/-- kccController.acceptPickupSignal (lines 878-998): role and branch
gates, depot lookup (the signal id is the depot id), county isolation, the
lazy expiry check (a depot save when an overdue available signal is
expired), signal-availability check, then the unpaid-pickups gate rejecting
with the pending totals; only then is the signal accepted. -/
def Sys.acceptPickupSignal (σ : Sys) (kccAttendantId : UserId) (signalId : Nat)
    (now : Int) : Sys × Except ApiErr Unit :=
  match assocFind σ.users kccAttendantId with
  | none => (σ, .error { status := 403, kind := .unauthorized })
  | some u =>
    if u.role ≠ Role.kcc_attendant then
      (σ, .error { status := 403, kind := .unauthorized })
    else
      match u.assignedKcc with
      | none => (σ, .error { status := 400, kind := .unauthorized })
      | some kid =>
        match assocFind σ.kccs kid with
        | none => (σ, .error { status := 400, kind := .unauthorized })
        | some kccBranch =>
          match assocFind σ.depots signalId with
          | none => (σ, .error { status := 404, kind := .notFound })
          | some depot =>
            if depot.county ≠ kccBranch.county then
              (σ, .error { status := 400, kind := .unauthorized })
            else
              let depot2 := checkAndExpireSignal depot now
              let σ1 :=
                if needsExpiry depot now then
                  { σ with depots := assocSet σ.depots signalId depot2 }
                else σ
              match depot2.pickupSignal with
              | none => (σ1, .error { status := 400, kind := .invalidState })
              | some sig =>
                if sig.status ≠ SignalStatus.available then
                  (σ1, .error { status := 400, kind := .invalidState })
                else
                  let pend := pendingPickupsOf σ.txns kccAttendantId
                  if pend ≠ [] then
                    (σ1, .error (pendingRejection pend))
                  else
                    let sig2 : PickupSignal :=
                      { sig with status := .accepted, acceptedBy := some kccAttendantId }
                    let depot3 := { depot2 with pickupSignal := some sig2 }
                    ({ σ1 with depots := assocSet σ1.depots signalId depot3 }, .ok ())

/-! ## Claim C9: cash redemption -/

/-- Return record of calculateRedemptionValue.  `grossValue`, `fee` and
`netValue` are KES values (token quantities scaled by universalPrice);
`tokenAmount` and `netTokenAmount` are MTZ quantities. -/
structure RedemptionView where
  grossValue : ℚ
  fee : ℚ
  netValue : ℚ
  tokenAmount : ℚ
  netTokenAmount : ℚ
  deriving DecidableEq, Repr

/-- The arithmetic of Token.calculateRedemptionValue (Token.js lines
478-489) as it would evaluate with `this` bound to a token document — the
pure fee computation the spec describes. -/
def calculateRedemptionValueOnDoc (tk : TokenState) (tokenAmount : ℚ) :
    RedemptionView :=
  let fee := tokenAmount * tk.redemptionRules.cashRedemptionFee
  let netAmount := tokenAmount - fee
  { grossValue := tokenAmount * tk.universalPrice
    fee := fee * tk.universalPrice
    netValue := netAmount * tk.universalPrice
    tokenAmount := tokenAmount
    netTokenAmount := netAmount }

/-- The document fields visible on `this` inside a Token STATIC: none — a
mongoose static's `this` is the Model class, which carries no document
state (no redemptionRules, no universalPrice). -/
def tokenModelDocFields : Option TokenState := none

/-- Token.calculateRedemptionValue as the source declares it: a static
whose body reads `this.redemptionRules.cashRedemptionFee`.  Since `this`
is the Model class, `this.redemptionRules` is undefined and the property
access throws a TypeError on every call — the ok branch is unreachable. -/
def calculateRedemptionValue (tokenAmount : ℚ) : Except String RedemptionView :=
  match tokenModelDocFields with
  | none => .error "TypeError: cannot read cashRedemptionFee of undefined"
  | some tk => .ok (calculateRedemptionValueOnDoc tk tokenAmount)

/-- MpesaController.cashRedemption (mpesaController.js lines 10-83):
balance check, minimum-redemption check, redemption-value calculation
(which throws — see `calculateRedemptionValue`), then the pending
cash_redemption transaction, the wallet debit and the supply burn.  Every
throw lands in the catch block as a 400 with no further effects. -/
def Sys.cashRedemption (σ : Sys) (userId : UserId) (tokenAmount : ℚ)
    (today : Day) : Sys × Except ApiErr ℚ :=
  let gw := getOrCreateWallet σ.wallets userId
  let σ1 := σ.withWallets gw.1
  if gw.2.balance < tokenAmount then
    (σ1, .error { status := 400, kind := .insufficientFunds })
  else if tokenAmount < σ.token.redemptionRules.minRedemption then
    (σ1, .error { status := 400, kind := .invalidInput })
  else
    match calculateRedemptionValue tokenAmount with
    | .error _ => (σ1, .error { status := 400, kind := .internal })
    | .ok red =>
      let tx : Txn :=
        { id := σ1.nextTxnId, type := .cash_redemption,
          fromUser := some userId, toUser := some userId,
          attendant := some userId, tokensAmount := tokenAmount,
          cashAmount := red.netValue, status := .pending }
      match saveTxn σ1 tx with
      | .error _ => (σ1, .error { status := 400, kind := .internal })
      | .ok σ2 =>
        match gw.2.deductTokens tokenAmount today with
        | .error _ => (σ2, .error { status := 400, kind := .internal })
        | .ok w2 =>
          let σ3 := σ2.withWallets (assocSet σ2.wallets userId w2)
          match burnTokens σ3.token tokenAmount with
          | .error _ => (σ3, .error { status := 400, kind := .internal })
          | .ok tk2 => ({ σ3 with token := tk2 }, .ok red.netValue)

/-! ## Claim C6 theorems -/

theorem findPendingMilkDeposit_none (txns : List Txn) (tid depotId : Nat)
    (h : ∀ t ∈ txns, t.id = tid → t.status = TxStatus.completed) :
    findPendingMilkDeposit txns tid depotId = none := by
  induction txns with
  | nil => rfl
  | cons t rest ih =>
    have hrest : ∀ t2 ∈ rest, t2.id = tid → t2.status = TxStatus.completed :=
      fun t2 hm => h t2 (List.mem_cons_of_mem t hm)
    have hcond : ¬ (t.id = tid ∧ t.depot = some depotId ∧
        t.type = TxType.milk_deposit ∧ t.status = TxStatus.pending) := by
      rintro ⟨hid, -, -, hp⟩
      simp [h t (List.mem_cons_self t rest) hid] at hp
    show (if _ then some t else findPendingMilkDeposit rest tid depotId) = none
    rw [if_neg hcond]
    exact ih hrest

theorem findPendingKccPickup_none (txns : List Txn) (tid : Nat) (aid : UserId)
    (h : ∀ t ∈ txns, t.id = tid → t.status = TxStatus.completed) :
    findPendingKccPickup txns tid aid = none := by
  induction txns with
  | nil => rfl
  | cons t rest ih =>
    have hrest : ∀ t2 ∈ rest, t2.id = tid → t2.status = TxStatus.completed :=
      fun t2 hm => h t2 (List.mem_cons_of_mem t hm)
    have hcond : ¬ (t.id = tid ∧ t.kccAttendant = some aid ∧
        t.type = TxType.kcc_pickup ∧ t.status = TxStatus.pending) := by
      rintro ⟨hid, -, -, hp⟩
      simp [h t (List.mem_cons_self t rest) hid] at hp
    show (if _ then some t else findPendingKccPickup rest tid aid) = none
    rw [if_neg hcond]
    exact ih hrest

/-- Claim C6 (amended): calling the settlement step (processTokenPayment,
processKccPayment) on a transaction whose status is already completed is
rejected with no wallet or transaction mutation, but the rejection is the
404 not-found response of the `status: pending` lookup (the completed
transaction simply fails the query), not a distinct invalid-state error. -/
theorem settle_completed_rejected_no_mutation (σ : Sys) (attId kccAttId : UserId)
    (depotId tid tid2 : Nat) (today : Day)
    (hc1 : ∀ t ∈ σ.txns, t.id = tid → t.status = TxStatus.completed)
    (hc2 : ∀ t ∈ σ.txns, t.id = tid2 → t.status = TxStatus.completed) :
    ((σ.processTokenPayment attId depotId tid today).1 = σ ∧
      resOk (σ.processTokenPayment attId depotId tid today).2 = false) ∧
    (∀ att, assocFind σ.users attId = some att → att.assignedDepot = some depotId →
      (σ.processTokenPayment attId depotId tid today).2 =
        .error { status := 404, kind := .notFound }) ∧
    ((σ.processKccPayment kccAttId tid2 today).1 = σ ∧
      (σ.processKccPayment kccAttId tid2 today).2 =
        .error { status := 404, kind := .notFound }) := by
  have hfind := findPendingMilkDeposit_none σ.txns tid depotId hc1
  have hfind2 := findPendingKccPickup_none σ.txns tid2 kccAttId hc2
  refine ⟨?_, ?_, ?_⟩
  · unfold Sys.processTokenPayment
    rcases hu : assocFind σ.users attId with - | att
    · simp [resOk]
    · simp only [hu]
      by_cases hdep : att.assignedDepot = some depotId
      · rw [if_neg (not_not_intro hdep)]
        simp [hfind, resOk]
      · rw [if_pos hdep]
        simp [resOk]
  · intro att hu hdep
    unfold Sys.processTokenPayment
    simp only [hu]
    rw [if_neg (not_not_intro hdep)]
    simp [hfind]
  · unfold Sys.processKccPayment
    simp [hfind2]

/-- System with two already-settled transactions: milk deposit 5 in depot 7
(attendant 1) and KCC pickup 6 of attendant 3. -/
def sysSettled : Sys :=
  { users := [(1, { role := .attendant, assignedDepot := some 7 })],
    txns :=
      [{ id := 5, type := .milk_deposit, fromUser := some 2, toUser := some 2,
         attendant := some 1, depot := some 7, litersRaw := 25, tokensAmount := 25,
         status := .completed },
       { id := 6, type := .kcc_pickup, fromUser := some 1, toUser := some 3,
         attendant := some 3, kccAttendant := some 3, depot := some 7,
         litersRaw := 40, tokensAmount := 40, status := .completed }] }

/-- Counterexample to claim C6 as stated: settling the completed
transactions is rejected with the 404 not-found response — the error kind
is notFound, not the invalid-state kind the claim names (no mutation does
hold). -/
theorem settle_completed_notfound_counterexample :
    (sysSettled.processTokenPayment 1 7 5 0).2 =
        .error { status := 404, kind := ErrKind.notFound } ∧
      (sysSettled.processKccPayment 3 6 0).2 =
        .error { status := 404, kind := ErrKind.notFound } ∧
      (sysSettled.processTokenPayment 1 7 5 0).1 = sysSettled ∧
      (sysSettled.processKccPayment 3 6 0).1 = sysSettled ∧
      ErrKind.notFound ≠ ErrKind.invalidState := by
  exact ⟨rfl, rfl, rfl, rfl, by simp⟩

/-- Witness for `settle_completed_rejected_no_mutation` at `sysSettled`. -/
theorem settle_completed_rejected_no_mutation_witness :
    (sysSettled.processTokenPayment 1 7 5 0).1 = sysSettled ∧
      (sysSettled.processKccPayment 3 6 0).2 =
        .error { status := 404, kind := .notFound } := by
  have h := settle_completed_rejected_no_mutation sysSettled 1 3 7 5 6 0
    (by intro t ht hid; simp [sysSettled] at ht; rcases ht with rfl | rfl <;> rfl)
    (by intro t ht hid; simp [sysSettled] at ht; rcases ht with rfl | rfl <;> rfl)
  exact ⟨h.1.1, h.2.2.2⟩

/-! ## Claim C8 theorems -/

theorem pendingPickupsOf_append (ts1 ts2 : List Txn) (u : UserId) :
    pendingPickupsOf (ts1 ++ ts2) u =
      pendingPickupsOf ts1 u ++ pendingPickupsOf ts2 u := by
  induction ts1 with
  | nil => simp [pendingPickupsOf]
  | cons t rest ih =>
    simp only [List.cons_append, pendingPickupsOf, ih]
    split <;> simp [ih]

/-- Claim C8: while a KCC attendant has at least one pending kcc_pickup
transaction, both recordKccPickup and acceptPickupSignal reject with the
400 response carrying the pending totals and leave the state untouched
(the hypotheses place the call past the role/branch/county/signal gates,
with a non-expired available signal); and a successful recordKccPickup
leaves the attendant with exactly one pending pickup — so at most one
outstanding unpaid pickup batch exists per attendant. -/
theorem kcc_pickup_blocked_while_pending (σ : Sys) (aId : UserId)
    (depotId sigId : Nat) (liters : ℚ) (now : Int)
    (u : User) (kid : Nat) (k : Kcc) (depot : Depot) (sig : PickupSignal)
    (hu : assocFind σ.users aId = some u)
    (hrole : u.role = Role.kcc_attendant)
    (hkid : u.assignedKcc = some kid)
    (hk : assocFind σ.kccs kid = some k)
    (hka : k.status = EntStatus.active)
    (hd : assocFind σ.depots sigId = some depot)
    (hcounty : depot.county = k.county)
    (hsig : depot.pickupSignal = some sig)
    (hsa : sig.status = SignalStatus.available)
    (hnx : signalExpired depot now = false) :
    (pendingPickupsOf σ.txns aId ≠ [] →
      σ.recordKccPickup aId depotId liters =
        (σ, .error (pendingRejection (pendingPickupsOf σ.txns aId))) ∧
      σ.acceptPickupSignal aId sigId now =
        (σ, .error (pendingRejection (pendingPickupsOf σ.txns aId)))) ∧
    (∀ σ2 tid, σ.recordKccPickup aId depotId liters = (σ2, .ok tid) →
      (pendingPickupsOf σ2.txns aId).length = 1) := by
  have hne : needsExpiry depot now = false := by
    unfold needsExpiry
    rw [hsig]
    simp [hsa, hnx]
  have hd2 : checkAndExpireSignal depot now = depot := by
    unfold checkAndExpireSignal
    rw [hsig]
    simp [hne]
  constructor
  · intro hpend
    constructor
    · unfold Sys.recordKccPickup
      simp only [hu]
      rw [if_neg (not_not_intro hrole)]
      simp only [hkid, hk]
      rw [if_neg (not_not_intro hka), if_pos hpend]
    · unfold Sys.acceptPickupSignal
      simp only [hu]
      rw [if_neg (not_not_intro hrole)]
      simp only [hkid, hk, hd]
      rw [if_neg (not_not_intro hcounty)]
      simp only [hd2, hne, if_false, Bool.false_eq_true, hsig]
      rw [if_neg (not_not_intro hsa), if_pos hpend]
  · intro σ2 tid h
    unfold Sys.recordKccPickup at h
    simp only [hu] at h
    rw [if_neg (not_not_intro hrole)] at h
    simp only [hkid, hk] at h
    rw [if_neg (not_not_intro hka)] at h
    by_cases hpend : pendingPickupsOf σ.txns aId ≠ []
    · rw [if_pos hpend] at h
      simp at h
    · rw [if_neg hpend] at h
      have hnil : pendingPickupsOf σ.txns aId = [] := not_ne_iff.mp hpend
      rcases hdep : assocFind σ.depots depotId with - | dep
      · rw [hdep] at h
        simp at h
      · simp only [hdep] at h
        rcases hda : findDepotAttendant σ.users depotId with - | depAtt
        · rw [hda] at h
          simp at h
        · simp only [hda] at h
          by_cases hstock : dep.stock.rawMilk < liters
          · rw [if_pos hstock] at h
            simp at h
          · rw [if_neg hstock] at h
            by_cases hbal : (getOrCreateWallet σ.wallets aId).2.balance < liters
            · rw [if_pos hbal] at h
              simp at h
            · rw [if_neg hbal, if_neg hstock] at h
              split at h
              · simp at h
              · rename_i σ3 hsv
                simp only [Prod.mk.injEq] at h
                obtain ⟨rfl, -⟩ := h
                have hσ3 := saveTxn_ok _ _ _ hsv
                rw [hσ3]
                show (pendingPickupsOf (σ.txns ++ [_]) aId).length = 1
                rw [pendingPickupsOf_append, hnil]
                simp [pendingPickupsOf]

/-- KCC attendant 3 of branch 4. -/
def kccUser3 : User := { role := .kcc_attendant, assignedKcc := some 4 }

/-- Depot attendant 2 of depot 7. -/
def depotUser2 : User := { role := .attendant, assignedDepot := some 7 }

/-- Active KCC branch 4 in county N. -/
def kccBranch4 : Kcc := { county := "N" }

/-- Available, unexpired pickup signal at depot 7. -/
def signal7 : PickupSignal :=
  { estimatedLiters := 200, status := .available, expiresAt := some 100 }

/-- Depot 7 in county N with 500 L of raw milk and the available signal. -/
def depot7 : Depot :=
  { county := "N", stock := { rawMilk := 500, capacity := 1000 },
    assignedAttendant := some 2, pickupSignal := some signal7 }

/-- A pending 40 L pickup of attendant 3 at depot 7. -/
def pendingTx9 : Txn :=
  { id := 9, type := .kcc_pickup, fromUser := some 2, toUser := some 3,
    attendant := some 3, kccAttendant := some 3, depot := some 7,
    litersRaw := 40, tokensAmount := 0, status := .pending }

/-- State with attendant 3 holding one unpaid 40 L pickup. -/
def sysPendingPickup : Sys :=
  { users := [(3, kccUser3), (2, depotUser2)],
    kccs := [(4, kccBranch4)],
    depots := [(7, depot7)],
    txns := [pendingTx9] }

/-- Witness for `kcc_pickup_blocked_while_pending`: attendant 3, holding
the unpaid 40 L pickup, is rejected on a new 100 L recording and on a
signal acceptance, with totals listing 40 L. -/
theorem kcc_pickup_blocked_while_pending_witness :
    sysPendingPickup.recordKccPickup 3 7 100 =
      (sysPendingPickup,
        .error (pendingRejection (pendingPickupsOf sysPendingPickup.txns 3))) ∧
    sysPendingPickup.acceptPickupSignal 3 7 50 =
      (sysPendingPickup,
        .error (pendingRejection (pendingPickupsOf sysPendingPickup.txns 3))) ∧
    sumLiters (pendingPickupsOf sysPendingPickup.txns 3) = 40 := by
  have h := kcc_pickup_blocked_while_pending sysPendingPickup 3 7 7 100 50
    kccUser3 4 kccBranch4 depot7 signal7 rfl rfl rfl rfl rfl rfl rfl rfl rfl rfl
  have hp := h.1 (by
    show pendingPickupsOf sysPendingPickup.txns 3 ≠ []
    simp [sysPendingPickup, pendingPickupsOf, pendingTx9])
  refine ⟨hp.1, hp.2, ?_⟩
  norm_num [sysPendingPickup, pendingPickupsOf, pendingTx9, sumLiters]

/-! ## Claim C9 theorems -/

/-- Redeeming user 1 with 100 MTZ against the default token rules (2 percent
fee, minimum 10, price 50) and a live supply. -/
def sysRedeem : Sys :=
  { wallets := [(1, { balance := 100 })],
    token := { totalSupply := 1000, circulatingSupply := 900, burnedSupply := 100 } }

/-- Claim C9 evaluated at the failing input (code bug): the
sub-minimum rejection works as claimed (5 MTZ against minimum 10 is
rejected with no mutation), and the arithmetic the spec describes would
yield netTokenAmount 19.6 with a 0.4 MTZ fee for 20 MTZ at the 2 percent
rate — but calculateRedemptionValue is a static reading document fields
off the Model class, so it throws on every call and the 20 MTZ redemption
fails with a 400 instead of succeeding and burning 20 MTZ: the state
(wallet, supplies, transaction log) is left completely unchanged. -/
theorem cash_redemption_divergence :
    sysRedeem.cashRedemption 1 20 0 =
        (sysRedeem, .error { status := 400, kind := ErrKind.internal }) ∧
      sysRedeem.cashRedemption 1 5 0 =
        (sysRedeem, .error { status := 400, kind := ErrKind.invalidInput }) ∧
      calculateRedemptionValue 20 =
        .error "TypeError: cannot read cashRedemptionFee of undefined" ∧
      (calculateRedemptionValueOnDoc sysRedeem.token 20).netTokenAmount = 98 / 5 ∧
      (calculateRedemptionValueOnDoc sysRedeem.token 20).tokenAmount -
          (calculateRedemptionValueOnDoc sysRedeem.token 20).netTokenAmount = 2 / 5 := by
  refine ⟨?_, ?_, rfl, ?_, ?_⟩
  · norm_num [sysRedeem, Sys.cashRedemption, getOrCreateWallet, assocFind,
      calculateRedemptionValue, tokenModelDocFields, Sys.withWallets]
  · norm_num [sysRedeem, Sys.cashRedemption, getOrCreateWallet, assocFind,
      Sys.withWallets]
  · norm_num [sysRedeem, calculateRedemptionValueOnDoc]
  · norm_num [sysRedeem, calculateRedemptionValueOnDoc]

end MTZ
